import Mathlib

/-!
Verification of the dependency-version reconciliation engine of
`src/src/api/consumer/lib/import.js`: the version classifier
(`getSemverType`), the compatibility evaluator (`compatibleWith`) and the
drift reporter (`warnForPackageDependencies`).

The engine consumes the external npm `semver` library only through the four
calls `semver.valid`, `semver.validRange`, `semver.eq` and
`semver.satisfies`, and each result is used for its JavaScript truthiness.
The embedding therefore abstracts the library as a structure of four
boolean-valued functions (`Semver` below); the engine's own logic is
embedded verbatim over that interface.  A small executable instance
(`semverNode`) reproduces the library's behaviour on the concrete specifier
strings used in the closed statements below.
-/

namespace BitImport

/-- The npm `semver` library as `import.js` consumes it: each field is the
JavaScript truthiness of the corresponding library call (`semver.valid`,
`semver.validRange`, `semver.eq`, `semver.satisfies`).  `valid_empty`
records one fixed fact of the library: `semver.valid('')` is `null` (the
empty string is not a version), hence falsy. -/
structure Semver where
  valid : String → Bool
  validRange : String → Bool
  eq : String → String → Bool
  satisfies : String → String → Bool
  valid_empty : valid "" = false

/-- The two non-null results of `getSemverType`: `'V'` (an exact version)
and `'R'` (a range).  The JavaScript `null` is `Option.none` here. -/
inductive SemverKind where
  | V : SemverKind
  | R : SemverKind
  deriving DecidableEq, Repr

/-- `getSemverType` from `import.js`:
`if (semver.valid(str)) return 'V'; if (semver.validRange(str)) return 'R'; return null;` -/
def getSemverType (lib : Semver) (str : String) : Option SemverKind :=
  if lib.valid str then some SemverKind.V
  else if lib.validRange str then some SemverKind.R
  else none

/-- A version source: a JavaScript object mapping package name to version
specifier, embedded as its key/value pairs in insertion order (keys are
unique in an object, so lookup takes the first match). -/
abbrev VersionSource := List (String × String)

/-- Property access `b[depName]` on a version-source object. -/
def lookupDep (b : VersionSource) (name : String) : Option String :=
  (b.find? (fun kv => kv.1 == name)).map (fun kv => kv.2)

/-- JavaScript `str.startsWith('^')`: the first character is a caret. -/
def startsWithCaret (s : String) : Bool :=
  match s.data with
  | [] => false
  | c :: _ => c == '^'

/-- JavaScript `parseInt(s[i], 10)` applied to the single character `s[i]`:
the digit's value, or `none` for `NaN` (a non-digit character, or an index
past the end, where `s[i]` is `undefined`). -/
def parseIntChar (s : String) (i : Nat) : Option Nat :=
  match s.data.get? i with
  | some c => if c.isDigit then some (c.toNat - '0'.toNat) else none
  | none => none

/-- `compatibleWith` from `import.js`.  The single-key object `a` built as
`{ [packageDepName]: packageDepVersion }` is the pair `(name, version)`.
The guard `if (!b[depName]) return false` is JavaScript truthiness: it also
fires when the stored value is the empty string.  The final `'R'`/`'R'`
branch compares `parseInt(aVersion[1], 10)` with `parseInt(bVersion[1], 10)`
under strict equality, which is false when either side is `NaN`. -/
def compatibleWith (lib : Semver) (a : String × String) (b : VersionSource) : Bool :=
  match lookupDep b a.1 with
  | none => false
  | some bVersion =>
    if bVersion == "" then false
    else
      match getSemverType lib a.2, getSemverType lib bVersion with
      | some SemverKind.V, some SemverKind.V => lib.eq a.2 bVersion
      | some SemverKind.V, some SemverKind.R => lib.satisfies a.2 bVersion
      | some SemverKind.R, some SemverKind.V => lib.satisfies bVersion a.2
      | some SemverKind.R, some SemverKind.R =>
        if startsWithCaret a.2 && startsWithCaret bVersion then
          match parseIntChar a.2 1, parseIntChar bVersion 1 with
          | some x, some y => x == y
          | _, _ => false
        else false
      | _, _ => false

/-- A component as `warnForPackageDependencies` reads it: an identifier and
its declared package dependencies (`none` embeds a falsy
`dep.packageDependencies`). -/
structure Component where
  id : String
  packageDependencies : Option (List (String × String))

/-- The warning report: three buckets, appended to by `push`. -/
structure Warnings where
  notInPackageJson : List (String × String)
  notInNodeModules : List (String × String)
  notInBoth : List (String × String)
  deriving DecidableEq, Repr

/-- The initial `warnings` object of `warnForPackageDependencies`. -/
def emptyWarnings : Warnings :=
  { notInPackageJson := [], notInNodeModules := [], notInBoth := [] }

/-- The body of the `R.forEachObjIndexed` callback in
`warnForPackageDependencies`: evaluate the two compatibility checks for one
`(packageDepName, packageDepVersion)` pair and push into the matching
bucket.  The source has three independent `if` statements, embedded here in
the same order. -/
def processDep (lib : Semver) (packageJsonDeps nodeModules : VersionSource)
    (w : Warnings) (dep : String × String) : Warnings :=
  let compatibleWithPackgeJson := compatibleWith lib dep packageJsonDeps
  let compatibleWithNodeModules := compatibleWith lib dep nodeModules
  let w1 :=
    if !compatibleWithPackgeJson && !compatibleWithNodeModules then
      { w with notInBoth := w.notInBoth ++ [dep] }
    else w
  let w2 :=
    if !compatibleWithPackgeJson && compatibleWithNodeModules then
      { w1 with notInPackageJson := w1.notInPackageJson ++ [dep] }
    else w1
  if compatibleWithPackgeJson && !compatibleWithNodeModules then
    { w2 with notInNodeModules := w2.notInNodeModules ++ [dep] }
  else w2

/-- The body of `dependencies.forEach`: skip a component whose
`packageDependencies` is falsy or empty, otherwise process each declared
dependency in iteration order. -/
def processComponent (lib : Semver) (packageJsonDeps nodeModules : VersionSource)
    (w : Warnings) (dep : Component) : Warnings :=
  match dep.packageDependencies with
  | none => w
  | some deps =>
    if deps.isEmpty then w
    else deps.foldl (processDep lib packageJsonDeps nodeModules) w

/-- The reconciliation loop of `warnForPackageDependencies`, as a function
of the component list and the two already-built version sources. -/
def warnForPackageDependencies (lib : Semver) (dependencies : List Component)
    (packageJsonDeps nodeModules : VersionSource) : Warnings :=
  dependencies.foldl (processComponent lib packageJsonDeps nodeModules) emptyWarnings

/-- The fields of a parsed `package.json` that `warnForPackageDependencies`
reads. -/
structure PackageJson where
  name : Option String
  version : Option String
  dependencies : Option VersionSource
  devDependencies : Option VersionSource

/-- The empty object `{}` returned on a failed read. -/
def emptyPackageJson : PackageJson :=
  { name := none, version := none, dependencies := none, devDependencies := none }

/-- `getPackageJson` from `import.js`:
`try { return fs.readJSONSync(path.join(dir, 'package.json')); } catch (e) { return {}; }`.
The filesystem read is abstracted as its outcome: `Except.error` stands for
any thrown error (missing or unreadable file). -/
def getPackageJson (readResult : Except Unit PackageJson) : PackageJson :=
  match readResult with
  | Except.ok pj => pj
  | Except.error _ => emptyPackageJson

/-- `R.merge(l, r)`: one object with the own keys of both, `r` winning name
collisions; `l`'s keys keep their order, `r`'s new keys follow. -/
def mergeObj (l r : VersionSource) : VersionSource :=
  l.map (fun kv =>
    match lookupDep r kv.1 with
    | some v => (kv.1, v)
    | none => kv) ++
  r.filter (fun kv => (lookupDep l kv.1).isNone)

/-- `packageJsonDependencies` from `import.js`:
`R.merge(packageJson.dependencies || {}, packageJson.devDependencies || {})`. -/
def packageJsonDependencies (pj : PackageJson) : VersionSource :=
  mergeObj (pj.dependencies.getD []) (pj.devDependencies.getD [])

/-- All declared package dependencies of a component list, flattened in
iteration order (a component with falsy or empty dependencies contributes
nothing). -/
def allPackageDeps (comps : List Component) : List (String × String) :=
  (comps.map (fun c => c.packageDependencies.getD [])).flatten

/-- Auxiliary digit-string parser for the executable `semverNode` instance. -/
def digitsToNat (cs : List Char) : Option Nat :=
  if cs.isEmpty then none
  else if cs.all Char.isDigit then
    some (cs.foldl (fun n c => 10 * n + (c.toNat - '0'.toNat)) 0)
  else none

/-- Split a character list on dots. -/
def splitDots : List Char → List (List Char)
  | [] => [[]]
  | c :: rest =>
    match splitDots rest with
    | [] => [[]]
    | g :: gs => if c = '.' then [] :: g :: gs else (c :: g) :: gs

/-- Parse a plain `major.minor.patch` version as a triple of numbers. -/
def parseTriple (cs : List Char) : Option (Nat × Nat × Nat) :=
  match splitDots cs with
  | [a, b, c] =>
    match digitsToNat a, digitsToNat b, digitsToNat c with
    | some x, some y, some z => some (x, y, z)
    | _, _, _ => none
  | _ => none

/-- An executable instance of the `Semver` interface reproducing the npm
library's behaviour on the specifier strings used in the closed statements
below: plain `major.minor.patch` versions, caret ranges
`^major.minor.patch`, and the empty string.  Two library facts matter:
`semver.valid('')` is `null`, while `semver.validRange('')` is `'*'` — the
library substitutes `'*'` for the empty canonical range precisely so that
its result is truthy — so the empty string is a valid range (the ANY
range), and any plain version satisfies it. -/
def semverNode : Semver where
  valid s := (parseTriple s.data).isSome
  validRange s :=
    (parseTriple s.data).isSome ||
      (startsWithCaret s && (parseTriple (s.data.drop 1)).isSome) ||
      s == ""
  eq a b :=
    match parseTriple a.data, parseTriple b.data with
    | some x, some y => x == y
    | _, _ => false
  satisfies v r :=
    match parseTriple v.data with
    | none => false
    | some t =>
      if r == "" then true
      else if startsWithCaret r then
        match parseTriple (r.data.drop 1) with
        | some base =>
          t.1 == base.1 && (base.2.1 < t.2.1 || (t.2.1 == base.2.1 && base.2.2 ≤ t.2.2))
        | none => false
      else
        match parseTriple r.data with
        | some u => t == u
        | none => false
  valid_empty := by decide

/-! ### Shared structural lemmas about the reconciliation loop -/

/-- One `forEachObjIndexed` step, written as three independent appends. -/
theorem processDep_eq (lib : Semver) (m i : VersionSource) (w : Warnings)
    (d : String × String) :
    processDep lib m i w d =
      { notInPackageJson := w.notInPackageJson ++
          (if !compatibleWith lib d m && compatibleWith lib d i then [d] else []),
        notInNodeModules := w.notInNodeModules ++
          (if compatibleWith lib d m && !compatibleWith lib d i then [d] else []),
        notInBoth := w.notInBoth ++
          (if !compatibleWith lib d m && !compatibleWith lib d i then [d] else []) } := by
  obtain ⟨wp, wn, wb⟩ := w
  unfold processDep
  cases hm : compatibleWith lib d m <;> cases hi : compatibleWith lib d i <;> simp

/-- Folding one dependency list: each bucket collects, in order, the
dependencies meeting its condition. -/
theorem foldl_processDep (lib : Semver) (m i : VersionSource)
    (deps : List (String × String)) (w : Warnings) :
    deps.foldl (processDep lib m i) w =
      { notInPackageJson := w.notInPackageJson ++
          deps.filter (fun d => !compatibleWith lib d m && compatibleWith lib d i),
        notInNodeModules := w.notInNodeModules ++
          deps.filter (fun d => compatibleWith lib d m && !compatibleWith lib d i),
        notInBoth := w.notInBoth ++
          deps.filter (fun d => !compatibleWith lib d m && !compatibleWith lib d i) } := by
  induction deps generalizing w with
  | nil => simp
  | cons d ds ih =>
    rw [List.foldl_cons, ih, processDep_eq]
    cases hm : compatibleWith lib d m <;> cases hi : compatibleWith lib d i <;>
      simp [List.filter_cons, hm, hi]

/-- One `dependencies.forEach` step, in the same append form. -/
theorem processComponent_eq (lib : Semver) (m i : VersionSource) (w : Warnings)
    (c : Component) :
    processComponent lib m i w c =
      { notInPackageJson := w.notInPackageJson ++
          (c.packageDependencies.getD []).filter
            (fun d => !compatibleWith lib d m && compatibleWith lib d i),
        notInNodeModules := w.notInNodeModules ++
          (c.packageDependencies.getD []).filter
            (fun d => compatibleWith lib d m && !compatibleWith lib d i),
        notInBoth := w.notInBoth ++
          (c.packageDependencies.getD []).filter
            (fun d => !compatibleWith lib d m && !compatibleWith lib d i) } := by
  unfold processComponent
  cases hd : c.packageDependencies with
  | none => simp [hd]
  | some deps =>
    cases deps with
    | nil => simp [hd]
    | cons d ds => simp only [hd, List.isEmpty_cons, Bool.false_eq_true, if_false,
        foldl_processDep, Option.getD_some]

/-- Folding the component list from any starting report. -/
theorem foldl_processComponent (lib : Semver) (m i : VersionSource)
    (comps : List Component) (w : Warnings) :
    comps.foldl (processComponent lib m i) w =
      { notInPackageJson := w.notInPackageJson ++
          (allPackageDeps comps).filter
            (fun d => !compatibleWith lib d m && compatibleWith lib d i),
        notInNodeModules := w.notInNodeModules ++
          (allPackageDeps comps).filter
            (fun d => compatibleWith lib d m && !compatibleWith lib d i),
        notInBoth := w.notInBoth ++
          (allPackageDeps comps).filter
            (fun d => !compatibleWith lib d m && !compatibleWith lib d i) } := by
  induction comps generalizing w with
  | nil => simp [allPackageDeps]
  | cons c cs ih =>
    rw [List.foldl_cons, ih, processComponent_eq]
    simp [allPackageDeps, List.filter_append, List.append_assoc]

/-- The whole reconciliation: each bucket is a filter of the flattened
dependency sequence. -/
theorem warnFor_eq (lib : Semver) (comps : List Component)
    (m i : VersionSource) :
    warnForPackageDependencies lib comps m i =
      { notInPackageJson := (allPackageDeps comps).filter
          (fun d => !compatibleWith lib d m && compatibleWith lib d i),
        notInNodeModules := (allPackageDeps comps).filter
          (fun d => compatibleWith lib d m && !compatibleWith lib d i),
        notInBoth := (allPackageDeps comps).filter
          (fun d => !compatibleWith lib d m && !compatibleWith lib d i) } := by
  unfold warnForPackageDependencies
  rw [foldl_processComponent]
  simp [emptyWarnings]

/-! ### Claim theorems -/

/-- C1: for every evaluated `(name, version)` pair, with `inManifest` its
compatibility with the manifest source and `inInstalled` its compatibility
with the installed source, the reconciliation step appends the pair to
`notInBoth` iff neither holds, to `notInPackageJson` iff only `inInstalled`
holds, to `notInNodeModules` iff only `inManifest` holds, and to no bucket
iff both hold. -/
theorem bucket_classification_iff (lib : Semver) (m i : VersionSource)
    (w : Warnings) (d : String × String) :
    ((processDep lib m i w d).notInBoth = w.notInBoth ++ [d] ↔
      compatibleWith lib d m = false ∧ compatibleWith lib d i = false) ∧
    ((processDep lib m i w d).notInPackageJson = w.notInPackageJson ++ [d] ↔
      compatibleWith lib d m = false ∧ compatibleWith lib d i = true) ∧
    ((processDep lib m i w d).notInNodeModules = w.notInNodeModules ++ [d] ↔
      compatibleWith lib d m = true ∧ compatibleWith lib d i = false) ∧
    (processDep lib m i w d = w ↔
      compatibleWith lib d m = true ∧ compatibleWith lib d i = true) := by
  obtain ⟨wp, wn, wb⟩ := w
  rw [processDep_eq]
  cases hm : compatibleWith lib d m <;> cases hi : compatibleWith lib d i <;> simp

/-- C8: one reconciliation step appends the evaluated pair to at most one of
the three buckets (the total length grows by at most one), and a pair
incompatible with both sources goes only to `notInBoth`, leaving the other
two buckets untouched. -/
theorem at_most_one_bucket (lib : Semver) (m i : VersionSource)
    (w : Warnings) (d : String × String) :
    ((processDep lib m i w d).notInBoth.length +
        (processDep lib m i w d).notInPackageJson.length +
        (processDep lib m i w d).notInNodeModules.length ≤
      w.notInBoth.length + w.notInPackageJson.length + w.notInNodeModules.length + 1) ∧
    ((processDep lib m i w d).notInBoth =
      if !compatibleWith lib d m && !compatibleWith lib d i then w.notInBoth ++ [d]
      else w.notInBoth) ∧
    ((processDep lib m i w d).notInPackageJson =
      if !compatibleWith lib d m && compatibleWith lib d i then w.notInPackageJson ++ [d]
      else w.notInPackageJson) ∧
    ((processDep lib m i w d).notInNodeModules =
      if compatibleWith lib d m && !compatibleWith lib d i then w.notInNodeModules ++ [d]
      else w.notInNodeModules) := by
  obtain ⟨wp, wn, wb⟩ := w
  rw [processDep_eq]
  cases hm : compatibleWith lib d m <;> cases hi : compatibleWith lib d i <;> simp <;> omega

/-- C9: each warning bucket lists, in the iteration order of the components
and, within a component, of its declared dependencies, exactly the pairs
meeting its condition — a filter of the flattened input sequence, with no
reordering. -/
theorem buckets_preserve_order (lib : Semver) (comps : List Component)
    (m i : VersionSource) :
    (warnForPackageDependencies lib comps m i).notInBoth =
      (allPackageDeps comps).filter
        (fun d => !compatibleWith lib d m && !compatibleWith lib d i) ∧
    (warnForPackageDependencies lib comps m i).notInPackageJson =
      (allPackageDeps comps).filter
        (fun d => !compatibleWith lib d m && compatibleWith lib d i) ∧
    (warnForPackageDependencies lib comps m i).notInNodeModules =
      (allPackageDeps comps).filter
        (fun d => compatibleWith lib d m && !compatibleWith lib d i) := by
  rw [warnFor_eq]
  exact ⟨rfl, rfl, rfl⟩

/-- C6: `getSemverType` yields exactly one of `'V'`, `'R'`, `null`: `'V'`
exactly when the string is a valid exact version, `'R'` exactly when it is
not a valid exact version but is a valid range (the exact-version check
takes precedence), and `null` exactly when it is neither. -/
theorem getSemverType_partition (lib : Semver) (s : String) :
    (getSemverType lib s = some SemverKind.V ↔ lib.valid s = true) ∧
    (getSemverType lib s = some SemverKind.R ↔
      lib.valid s = false ∧ lib.validRange s = true) ∧
    (getSemverType lib s = none ↔
      lib.valid s = false ∧ lib.validRange s = false) := by
  unfold getSemverType
  cases hv : lib.valid s <;> cases hr : lib.validRange s <;> simp

/-- C4: when the source has no entry for the dependency's name,
`compatibleWith` is false, for every declared specifier. -/
theorem absent_name_incompatible (lib : Semver) (name v : String)
    (b : VersionSource) (h : lookupDep b name = none) :
    compatibleWith lib (name, v) b = false := by
  simp [compatibleWith, h]

/-- Witness for C4 at a concrete input: an empty source. -/
theorem absent_name_incompatible_witness :
    compatibleWith semverNode ("ramda", "^0.22.1") [] = false :=
  absent_name_incompatible semverNode "ramda" "^0.22.1" [] (by decide)

/-- C5: for a name present in the source, if either side's specifier
classifies as invalid (`null`), `compatibleWith` is false; the invalid case
short-circuits before any equality or satisfaction test (and the embedding
is a total function, so no input raises). -/
theorem invalid_specifier_incompatible (lib : Semver) (name v : String)
    (b : VersionSource) (bVersion : String)
    (hb : lookupDep b name = some bVersion)
    (h : getSemverType lib v = none ∨ getSemverType lib bVersion = none) :
    compatibleWith lib (name, v) b = false := by
  simp only [compatibleWith, hb]
  by_cases hbe : bVersion = ""
  · simp [hbe]
  · rcases h with h | h <;>
      cases hA : getSemverType lib v <;> cases hB : getSemverType lib bVersion <;>
      simp_all

/-- Witness for C5 at a concrete input: a malformed declared specifier. -/
theorem invalid_specifier_incompatible_witness :
    compatibleWith semverNode ("x", "not-a-version") [("x", "1.0.0")] = false :=
  invalid_specifier_incompatible semverNode "x" "not-a-version" [("x", "1.0.0")]
    "1.0.0" (by decide) (Or.inl (by decide))

/-- C7: a failed read of `package.json` yields the empty object, whose
derived manifest source is empty; the reconciliation is a total function of
its inputs (so it never raises); and with both version sources empty, every
declared dependency of every component lands in `notInBoth`, in input
order, while the other two buckets stay empty. -/
theorem empty_sources_all_notInBoth (lib : Semver) (comps : List Component) :
    getPackageJson (Except.error ()) = emptyPackageJson ∧
    packageJsonDependencies emptyPackageJson = [] ∧
    (warnForPackageDependencies lib comps [] []).notInBoth = allPackageDeps comps ∧
    (warnForPackageDependencies lib comps [] []).notInPackageJson = [] ∧
    (warnForPackageDependencies lib comps [] []).notInNodeModules = [] := by
  have hnil : ∀ d : String × String, compatibleWith lib d [] = false := by
    intro d; rfl
  rw [warnFor_eq]
  refine ⟨rfl, rfl, ?_, ?_, ?_⟩ <;> simp [hnil]

/-- C2: for two specifiers that both classify as ranges, `compatibleWith`
is true exactly when both start with a caret and the character at index 1
of each (the one immediately after the caret) is the same decimal digit;
every other range-range pair is false. -/
theorem range_range_caret_iff (lib : Semver) (name aVersion bVersion : String)
    (b : VersionSource) (hb : lookupDep b name = some bVersion)
    (ha : getSemverType lib aVersion = some SemverKind.R)
    (hbt : getSemverType lib bVersion = some SemverKind.R) :
    compatibleWith lib (name, aVersion) b = true ↔
      startsWithCaret aVersion = true ∧ startsWithCaret bVersion = true ∧
        ∃ dgt, parseIntChar aVersion 1 = some dgt ∧ parseIntChar bVersion 1 = some dgt := by
  simp only [compatibleWith, hb]
  by_cases hbe : bVersion = ""
  · subst hbe
    simp [startsWithCaret]
  · have : (bVersion == "") = false := by simp [hbe]
    rw [this]
    simp only [Bool.false_eq_true, if_false, ha, hbt]
    cases hA : startsWithCaret aVersion <;> cases hB : startsWithCaret bVersion <;> simp
    cases hpa : parseIntChar aVersion 1 <;> cases hpb : parseIntChar bVersion 1 <;> simp
    exact eq_comm

/-- Witness for C2 at a concrete input: `^2.1.0` against `^2.9.9`. -/
theorem range_range_caret_iff_witness :
    compatibleWith semverNode ("lodash", "^2.1.0") [("lodash", "^2.9.9")] = true ↔
      startsWithCaret "^2.1.0" = true ∧ startsWithCaret "^2.9.9" = true ∧
        ∃ dgt, parseIntChar "^2.1.0" 1 = some dgt ∧ parseIntChar "^2.9.9" 1 = some dgt :=
  range_range_caret_iff semverNode "lodash" "^2.1.0" "^2.9.9"
    [("lodash", "^2.9.9")] (by decide) (by decide) (by decide)

/-- C3 counterexample: the mixed exact/range rule is not symmetric and is
not "true iff the exact version satisfies the range".  The empty string is
a valid range for the library (`semver.validRange('')` is the truthy `'*'`,
the ANY range), and `1.0.0` satisfies it; yet with the empty string stored
in the source, the truthiness guard `if (!b[depName]) return false` fires
and `compatibleWith` is false — while with the operands swapped it is
true. -/
theorem mixed_exact_range_cex :
    getSemverType semverNode "1.0.0" = some SemverKind.V ∧
    getSemverType semverNode "" = some SemverKind.R ∧
    semverNode.satisfies "1.0.0" "" = true ∧
    lookupDep [("left-pad", "")] "left-pad" = some "" ∧
    compatibleWith semverNode ("left-pad", "1.0.0") [("left-pad", "")] = false ∧
    compatibleWith semverNode ("left-pad", "") [("left-pad", "1.0.0")] = true := by
  decide

/-- C3 amended: exact-exact compatibility is semver equality; an exact
declared specifier against a range entry is "the exact version satisfies
the range" unless the entry is the empty string, where the truthiness guard
forces false; a range declared specifier against an exact entry is always
"the exact version satisfies the range"; and the two mixed cases agree
whenever the range is not the empty string. -/
theorem mixed_exact_range_amended (lib : Semver) (name aVersion bVersion : String)
    (b : VersionSource) (hb : lookupDep b name = some bVersion) :
    (getSemverType lib aVersion = some SemverKind.V →
      getSemverType lib bVersion = some SemverKind.V →
      compatibleWith lib (name, aVersion) b = lib.eq aVersion bVersion) ∧
    (getSemverType lib aVersion = some SemverKind.V →
      getSemverType lib bVersion = some SemverKind.R →
      compatibleWith lib (name, aVersion) b =
        if bVersion = "" then false else lib.satisfies aVersion bVersion) ∧
    (getSemverType lib aVersion = some SemverKind.R →
      getSemverType lib bVersion = some SemverKind.V →
      compatibleWith lib (name, aVersion) b = lib.satisfies bVersion aVersion) ∧
    (getSemverType lib aVersion = some SemverKind.V →
      getSemverType lib bVersion = some SemverKind.R → bVersion ≠ "" →
      compatibleWith lib (name, bVersion) [(name, aVersion)] =
        compatibleWith lib (name, aVersion) [(name, bVersion)]) := by
  have hval : ∀ s : String, getSemverType lib s = some SemverKind.V → s ≠ "" := by
    intro s hs he
    subst he
    simp [getSemverType, lib.valid_empty] at hs
  refine ⟨?_, ?_, ?_, ?_⟩
  · intro hA hB
    have hne : (bVersion == "") = false := by simp [hval bVersion hB]
    simp [compatibleWith, hb, hne, hA, hB]
  · intro hA hB
    by_cases hbe : bVersion = ""
    · simp [compatibleWith, hb, hbe]
    · have hne : (bVersion == "") = false := by simp [hbe]
      simp [compatibleWith, hb, hne, hA, hB, hbe]
  · intro hA hB
    have hne : (bVersion == "") = false := by simp [hval bVersion hB]
    simp [compatibleWith, hb, hne, hA, hB]
  · intro hA hB hbe
    have hane : (aVersion == "") = false := by simp [hval aVersion hA]
    have hbne : (bVersion == "") = false := by simp [hbe]
    simp [compatibleWith, lookupDep, hane, hbne, hA, hB]

/-- Witness for the amended C3 at a concrete input: `4.17.21` declared,
`^4.5.0` stored in the source. -/
theorem mixed_exact_range_amended_witness :
    compatibleWith semverNode ("lodash", "4.17.21") [("lodash", "^4.5.0")] =
      if ("^4.5.0" : String) = "" then false
      else semverNode.satisfies "4.17.21" "^4.5.0" :=
  (mixed_exact_range_amended semverNode "lodash" "4.17.21" "^4.5.0"
    [("lodash", "^4.5.0")] (by decide)).2.1 (by decide) (by decide)

/-- C10: the range-range caret rule reads only the character at index 1 of
each specifier, so caret specifiers whose numeric majors differ but share a
first digit are accepted: `^10.0.0` is compatible with `^1.0.0` and with
`^12.0.0`. -/
theorem caret_digit_only_first_char (lib : Semver)
    (h1 : getSemverType lib "^10.0.0" = some SemverKind.R)
    (h2 : getSemverType lib "^1.0.0" = some SemverKind.R)
    (h3 : getSemverType lib "^12.0.0" = some SemverKind.R) :
    compatibleWith lib ("pkg", "^10.0.0") [("pkg", "^1.0.0")] = true ∧
    compatibleWith lib ("pkg", "^10.0.0") [("pkg", "^12.0.0")] = true := by
  have la : lookupDep [("pkg", "^1.0.0")] "pkg" = some "^1.0.0" := by decide
  have lb : lookupDep [("pkg", "^12.0.0")] "pkg" = some "^12.0.0" := by decide
  constructor
  · simp only [compatibleWith, la, h1, h2]
    decide
  · simp only [compatibleWith, lb, h1, h3]
    decide

/-- Witness for C10 at the concrete library instance. -/
theorem caret_digit_only_first_char_witness :
    compatibleWith semverNode ("pkg", "^10.0.0") [("pkg", "^1.0.0")] = true ∧
    compatibleWith semverNode ("pkg", "^10.0.0") [("pkg", "^12.0.0")] = true :=
  caret_digit_only_first_char semverNode (by decide) (by decide) (by decide)

end BitImport
